import Mathlib

/-!
Shallow embedding of the precise-code-intel bundle-manager client
(internal/codeintel/bundles/client/client.go), its observability
decorator (ObservedClient), and the LSIF indexing/upload orchestrator
(the main package with ensureCloned / index / upload and the
fan-out/fan-in aggregation over buffered error channels).

External effects (HTTP round trips, stat calls, subprocess runs,
temp-dir creation, io.Copy, file close) are modelled as explicit
outcome parameters; the embedded functions compute the value the Go
code returns together with an explicit trace of the observable actions
(commands run, files created or removed, response bodies closed).
-/

namespace Precise

/-- A byte stream (response or request body). -/
abbrev Bytes := List Nat

/-- The Go constant http.StatusOK. -/
def httpStatusOK : Nat := 200

/-- An HTTP response as seen by clientImpl.do after httpClient.Do
succeeded: a status code and a body. -/
structure HTTPResponse where
  statusCode : Nat
  body : Bytes
deriving DecidableEq, Repr

/-- The error message built by clientImpl.do for a non-OK status:
fmt.Errorf("unexpected status code %d", resp.StatusCode). -/
def statusErrorMessage (code : Nat) : String :=
  "unexpected status code " ++ toString code

/-- clientImpl.do, lines 227-237 of client.go, from the point where
httpClient.Do has succeeded with the given response: if the status code
differs from http.StatusOK the body is closed and an error carrying the
status code is returned; otherwise the body is handed to the caller.
First component: the returned body or error.  Second component: whether
do itself closed the response body before returning. -/
def clientDo (resp : HTTPResponse) : Except String Bytes × Bool :=
  if resp.statusCode ≠ httpStatusOK then
    (Except.error (statusErrorMessage resp.statusCode), true)
  else
    (Except.ok resp.body, false)

/-- clientImpl.SendUpload after makeURL succeeded: POST via do, close
the body and return nil on success, otherwise forward the error from
do.  The result is the Go error value (none = nil). -/
def sendUpload (resp : HTTPResponse) : Option String :=
  match (clientDo resp).1 with
  | Except.error e => some e
  | Except.ok _ => none

/-- clientImpl.SendDB after makeURL succeeded: same shape as
SendUpload against the dbs endpoint. -/
def sendDB (resp : HTTPResponse) : Option String :=
  match (clientDo resp).1 with
  | Except.error e => some e
  | Except.ok _ => none

/-- clientImpl.queryBundle after makeBundleURL succeeded: GET via do,
then decode the JSON body into the target.  The JSON decoder is an
outcome parameter returning the Go error of json.Decode (none = nil). -/
def queryBundle (decode : Bytes → Option String) (resp : HTTPResponse) :
    Option String :=
  match (clientDo resp).1 with
  | Except.error e => some e
  | Except.ok body => decode body

/-- The outcomes of the external effects inside clientImpl.GetUpload:
the HTTP response received by do, the result of openRandomFile (the
generated file name, or an error), the error of io.Copy and the error
of the deferred f.Close (none = nil). -/
structure GetUploadEnv where
  response : HTTPResponse
  openResult : Except String String
  copyResult : Option String
  closeResult : Option String
deriving Repr

/-- What clientImpl.GetUpload returns and does: the returned path and
error, whether the random destination file was created, whether it was
removed again, and whether the response body was closed. -/
structure GetUploadOutcome where
  path : String
  err : Option String
  fileCreated : Bool
  fileRemoved : Bool
  bodyClosed : Bool
deriving DecidableEq, Repr

/-- clientImpl.GetUpload, lines 113-150 of client.go, after makeURL
succeeded.  On a do error: return ("", err).  Then open the random
file; on failure return ("", err) with the body closed by the defer.
Copy the body into the file; on a copy error return ("", err) — the
deferred close runs but, since err is already non-nil, its error is
dropped, and the partially written file is never removed.  On success
return (f.Name(), closeErr-or-nil). -/
def getUpload (env : GetUploadEnv) : GetUploadOutcome :=
  match (clientDo env.response).1 with
  | Except.error e =>
      { path := "", err := some e,
        fileCreated := false, fileRemoved := false, bodyClosed := true }
  | Except.ok _ =>
      match env.openResult with
      | Except.error e =>
          { path := "", err := some e,
            fileCreated := false, fileRemoved := false, bodyClosed := true }
      | Except.ok fname =>
          match env.copyResult with
          | some e =>
              { path := "", err := some e,
                fileCreated := true, fileRemoved := false, bodyClosed := true }
          | none =>
              { path := fname, err := env.closeResult,
                fileCreated := true, fileRemoved := false, bodyClosed := true }

/-! ### Observability decorator (ObservedClient) -/

/-- The three metric series of one operation (OperationMetrics in
client_observability: a duration histogram, a count counter and an
error counter), modelled by the number of observations each has
received. -/
structure OperationMetrics where
  durationObservations : Nat
  count : Nat
  errors : Nat
deriving DecidableEq, Repr

/-- OperationMetrics.Observe(secs, count, err): record one duration
observation, add the count, and increment the error counter exactly
when err is non-nil. -/
def OperationMetrics.observe (m : OperationMetrics) (countDelta : Nat)
    (err : Option String) : OperationMetrics :=
  { durationObservations := m.durationObservations + 1,
    count := m.count + countDelta,
    errors := if err.isSome then m.errors + 1 else m.errors }

/-- ClientMetrics: one OperationMetrics triple per logical operation. -/
structure ClientMetrics where
  sendUpload : OperationMetrics
  getUpload : OperationMetrics
  sendDB : OperationMetrics
  queryBundle : OperationMetrics
deriving DecidableEq, Repr

/-- The wrapped client, as the decorator sees it: one function per
operation, mapping the call arguments to the returned Go values.
Contexts and JSON targets are elided; results are the returned error
(and, for GetUpload, the returned path). -/
structure ClientBase where
  sendUpload : Nat → Bytes → Option String
  getUpload : Nat → String → String × Option String
  sendDB : Nat → Bytes → Option String
  queryBundle : Nat → String → List (String × String) → Option String

/-- ObservedClient: a wrapped base client plus its metrics state. -/
structure ObservedClient where
  base : ClientBase
  metrics : ClientMetrics

/-- ObservedClient.SendUpload: call the base client, then (in the
deferred block) observe duration/count/error.  Returns the base result
unchanged together with the updated metrics. -/
def ObservedClient.sendUpload (c : ObservedClient) (bundleID : Nat)
    (r : Bytes) : Option String × ClientMetrics :=
  let err := c.base.sendUpload bundleID r
  (err, { c.metrics with sendUpload := c.metrics.sendUpload.observe 1 err })

/-- ObservedClient.GetUpload: call the base client, observe, and return
the base result (path and error) unchanged. -/
def ObservedClient.getUpload (c : ObservedClient) (bundleID : Nat)
    (dir : String) : (String × Option String) × ClientMetrics :=
  let res := c.base.getUpload bundleID dir
  (res, { c.metrics with getUpload := c.metrics.getUpload.observe 1 res.2 })

/-- ObservedClient.SendDB: call the base client, observe, and return
the base result unchanged. -/
def ObservedClient.sendDB (c : ObservedClient) (bundleID : Nat)
    (r : Bytes) : Option String × ClientMetrics :=
  let err := c.base.sendDB bundleID r
  (err, { c.metrics with sendDB := c.metrics.sendDB.observe 1 err })

/-- ObservedClient.QueryBundle: call the base client, observe, and
return the base result unchanged. -/
def ObservedClient.queryBundle (c : ObservedClient) (bundleID : Nat)
    (op : String) (qs : List (String × String)) :
    Option String × ClientMetrics :=
  let err := c.base.queryBundle bundleID op qs
  (err, { c.metrics with queryBundle := c.metrics.queryBundle.observe 1 err })

/-- ObservedClient.BundleClient returns a bundleClientImpl whose base
is the observed client itself, so bundle queries go through the
instrumented QueryBundle scoped to the given bundle identifier. -/
def ObservedClient.bundleClientQuery (c : ObservedClient) (bundleID : Nat)
    (op : String) (qs : List (String × String)) :
    Option String × ClientMetrics :=
  c.queryBundle bundleID op qs

/-! ### Orchestrator (the LSIF upload main package) -/

/-- The outcome of an os.Stat call, classified the way the Go code
classifies it: err == nil (found), os.IsNotExist(err) (notFound), or
some other error (failed e). -/
inductive StatResult where
  | found
  | notFound
  | failed (e : String)
deriving DecidableEq, Repr

/-- A subprocess invocation as issued by runCommand: the working
directory and the command line. -/
structure GoCommand where
  dir : String
  argv : List String
deriving DecidableEq, Repr

/-- A repository descriptor from the static corpus. -/
structure Repo where
  owner : String
  name : String
  revs : List String
deriving DecidableEq, Repr

/-- The static corpus defined in the main package (commented-out
entries omitted, as the Go compiler omits them). -/
def repos : List Repo :=
  [ { owner := "uber-go", name := "zap",
      revs := [ "a6015e13fab9b744d96085308ce4e8f11bad1996",
                "2aa9fa25da83bdfff756c36a91442edc9a84576c" ] },
    { owner := "influxdata", name := "influxdb",
      revs := [ "369186d339389cfd79ab3e303687521d640c0ba2",
                "0f09f4d2ab27fbef88cb49d890d9bec6ee6ca675",
                "7be7328c3bd307f779c69c809b24d30808f72b12" ] },
    { owner := "distributedio", name := "titan",
      revs := [ "0ad2e75d529bda74472a1dbb5e488ec095b07fe7",
                "33623cc32f8d9f999fd69189d29124d4368c20ab",
                "aef232fbec9089d4468ff06705a3a7f84ee50ea6" ] },
    { owner := "etcd-io", name := "etcd",
      revs := [ "dfb0a405096af39e694a501de5b0a46962b3050e",
                "1044a8b07c56f3d32a1f3fe91c8ec849a8b17b5e",
                "fb77f9b1d56391318823c434f586ffe371750321" ] },
    { owner := "pingcap", name := "tidb",
      revs := [ "b4f42abc36d893ec3f443af78fc62705a2e54236",
                "43764a59b7dcb846dc1e9754e8f125818c69a96f",
                "2f9a487ebbd2f1a46b5f2c2262ae8f0ef4c4d42f" ] } ]

/-- The clone URL built by ensureCloned:
https://github.com/{owner}/{name}.git. -/
def cloneURL (repo : Repo) : String :=
  "https://github.com/" ++ repo.owner ++ "/" ++ repo.name ++ ".git"

/-- The git clone invocation issued from the repos directory. -/
def gitCloneCommand (repo : Repo) : GoCommand :=
  { dir := "repos", argv := ["git", "clone", cloneURL repo] }

/-- ensureCloned: stat repos/{name}; if err == nil or the error is not
a not-found error, return err and issue nothing; otherwise run exactly
one git clone of the canonical remote URL.  Returns the Go error and
the list of subprocess invocations issued. -/
def ensureCloned (repo : Repo) (stat : StatResult)
    (cloneResult : Option String) : Option String × List GoCommand :=
  match stat with
  | StatResult.found => (none, [])
  | StatResult.failed e => (some e, [])
  | StatResult.notFound => (cloneResult, [gitCloneCommand repo])

/-- filepath.Abs relative to the working directory of the process. -/
def absPath (cwd p : String) : String := cwd ++ "/" ++ p

/-- The deterministic artifact path indexes/{name}.{rev}.dump. -/
def indexFileName (name rev : String) : String :=
  "indexes/" ++ name ++ "." ++ rev ++ ".dump"

/-- The outcomes of the external effects inside an index task: the
stat of the artifact file, the ioutil.TempDir result, and the errors
of the four runCommand steps (none = success). -/
structure IndexEnv where
  statIndexFile : StatResult
  tempDirResult : Except String String
  cpResult : Option String
  checkoutResult : Option String
  vendorResult : Option String
  indexerResult : Option String
deriving Repr

/-- What one index task returns and does: whether the temporary
workspace was created, whether it was removed again by the deferred
os.RemoveAll, the subprocess invocations issued in order, and the Go
error returned. -/
structure IndexTrace where
  workspaceCreated : Bool
  workspaceRemoved : Bool
  commandsRun : List GoCommand
  result : Option String
deriving DecidableEq, Repr

/-- The loop over the commands slice in index: run each command in
order, stopping at (and returning) the first error. -/
def runSteps : List (GoCommand × Option String) → List GoCommand × Option String
  | [] => ([], none)
  | (cmd, outcome) :: rest =>
    match outcome with
    | some e => ([cmd], some e)
    | none => ((runSteps rest).1.cons cmd, (runSteps rest).2)

/-- The four commands of an index task, in source order: copy the
shared clone into the workspace, check out the revision, vendor the
dependencies, invoke the indexer with the deterministic output path. -/
def indexCommands (cwd name rev tempDir : String) : List GoCommand :=
  [ { dir := "", argv := ["cp", "-r", "repos/" ++ name, tempDir] },
    { dir := tempDir ++ "/" ++ name, argv := ["git", "checkout", rev] },
    { dir := tempDir ++ "/" ++ name, argv := ["go", "mod", "vendor"] },
    { dir := tempDir ++ "/" ++ name,
      argv := ["lsif-go", "-o", absPath cwd (indexFileName name rev)] } ]

/-- index(owner, name, rev): stat the artifact file; if err == nil or
the error is not a not-found error, return err with no workspace and
no subprocess.  Otherwise create the temporary workspace (failure
aborts the task), register its removal, and run the four steps in
order until the first failure; the deferred os.RemoveAll runs on every
exit path after creation. -/
def index (cwd owner name rev : String) (env : IndexEnv) : IndexTrace :=
  match env.statIndexFile with
  | StatResult.found =>
      { workspaceCreated := false, workspaceRemoved := false,
        commandsRun := [], result := none }
  | StatResult.failed e =>
      { workspaceCreated := false, workspaceRemoved := false,
        commandsRun := [], result := some e }
  | StatResult.notFound =>
      match env.tempDirResult with
      | Except.error e =>
          { workspaceCreated := false, workspaceRemoved := false,
            commandsRun := [], result := some e }
      | Except.ok tempDir =>
          let steps := (indexCommands cwd name rev tempDir).zip
            [env.cpResult, env.checkoutResult, env.vendorResult,
             env.indexerResult]
          { workspaceCreated := true, workspaceRemoved := true,
            commandsRun := (runSteps steps).1, result := (runSteps steps).2 }

/-- The drain loop shared by parallelForRepo, ensureIndexed and
ensureAllUploaded: after the wait-group barrier, read every result
from the buffered channel and return the first non-nil error, or nil
when all results are nil. -/
def drainErrors : List (Option String) → Option String
  | [] => none
  | some e :: _ => some e
  | none :: rest => drainErrors rest

/-- parallelForRepo(f): run f once per repository of the corpus, one
goroutine each, each writing its result into a channel buffered to the
corpus size; wait for all of them, then drain.  The completion order
in which the results were written is a permutation of the corpus; the
aggregate is the drain of the results in that order. -/
def parallelForRepo (f : Repo → Option String)
    (completionOrder : List Repo) : Option String :=
  drainErrors (completionOrder.map f)

/-! ### URL construction (makeURL / makeBundleURL) -/

/-- Lookup of a key in the url.Values map built by makeURL.  The qs
argument of makeURL is a Go map, embedded as an association list with
pairwise-distinct keys whose order stands for the (arbitrary) map
iteration order; values are already rendered with fmt.Sprintf("%v"). -/
def lookupKey (k : String) : List (String × String) → Option String
  | [] => none
  | (k', v) :: rest => if k' = k then some v else lookupKey k rest

/-- url.Values.Encode: render the map in sorted-key order as
k1=v1&k2=v2&...  (Escaping is the identity on the inputs this client
produces; it is key-sorted rendering that makes the output independent
of map iteration order.) -/
def encodeValues (qs : List (String × String)) : String :=
  String.intercalate "&"
    (((qs.map Prod.fst).insertionSort (fun a b => a ≤ b)).map
      (fun k => k ++ "=" ++ (lookupKey k qs).getD ""))

/-- A parsed URL as makeURL returns it: the base/path part and the
encoded raw query. -/
structure GoURL where
  pathPart : String
  rawQuery : String
deriving DecidableEq, Repr

/-- url.URL.String: append ?rawQuery when the query is non-empty. -/
def GoURL.render (u : GoURL) : String :=
  u.pathPart ++ (if u.rawQuery = "" then "" else "?" ++ u.rawQuery)

/-- makeURL(baseURL, path, qs): parse baseURL/path and attach the
encoded query values. -/
def makeURL (baseURL path : String) (qs : List (String × String)) : GoURL :=
  { pathPart := baseURL ++ "/" ++ path, rawQuery := encodeValues qs }

/-- makeBundleURL(baseURL, bundleID, op, qs) =
makeURL(baseURL, "dbs/{bundleID}/{op}", qs). -/
def makeBundleURL (baseURL : String) (bundleID : Nat) (op : String)
    (qs : List (String × String)) : GoURL :=
  makeURL baseURL ("dbs/" ++ toString bundleID ++ "/" ++ op) qs

/-! ### Helper lemmas -/

/-- Draining yields nil exactly when every drained result is nil. -/
theorem drainErrors_eq_none_iff (rs : List (Option String)) :
    drainErrors rs = none ↔ ∀ r ∈ rs, r = none := by
  induction rs with
  | nil => simp [drainErrors]
  | cons r rest ih =>
    cases r with
    | none => simpa [drainErrors] using ih
    | some e => simp [drainErrors]

/-- A non-nil drain result is the first non-nil entry of the drained
list: everything before it is nil. -/
theorem drainErrors_eq_some (rs : List (Option String)) (e : String)
    (h : drainErrors rs = some e) :
    ∃ pre post, rs = pre ++ some e :: post ∧ ∀ r ∈ pre, r = none := by
  induction rs with
  | nil => simp [drainErrors] at h
  | cons r rest ih =>
    cases r with
    | some e' =>
      have he : e' = e := by simpa [drainErrors] using h
      exact ⟨[], rest, by simp [he], by simp⟩
    | none =>
      obtain ⟨pre, post, heq, hall⟩ := ih (by simpa [drainErrors] using h)
      exact ⟨none :: pre, post, by simp [heq], by simpa using hall⟩

/-- A key is absent from the lookup exactly when it is absent from the
key list. -/
theorem lookupKey_eq_none (k : String) (qs : List (String × String)) :
    lookupKey k qs = none ↔ k ∉ qs.map Prod.fst := by
  induction qs with
  | nil => simp [lookupKey]
  | cons p rest ih =>
    obtain ⟨k', v⟩ := p
    by_cases hk : k' = k
    · subst hk
      simp [lookupKey]
    · have hstep : lookupKey k ((k', v) :: rest) = lookupKey k rest := by
        simp [lookupKey, hk]
      rw [hstep, ih]
      simp [Ne.symm hk]

/-- A successful lookup comes from a member of the association list. -/
theorem mem_of_lookupKey_eq_some (k v : String)
    (qs : List (String × String)) (h : lookupKey k qs = some v) :
    (k, v) ∈ qs := by
  induction qs with
  | nil => simp [lookupKey] at h
  | cons p rest ih =>
    obtain ⟨k', v'⟩ := p
    by_cases hk : k' = k
    · subst hk
      have : v' = v := by simpa [lookupKey] using h
      simp [this]
    · have := ih (by simpa [lookupKey, hk] using h)
      simp [this]

/-- With pairwise-distinct keys, a member of the association list is
found by the lookup. -/
theorem lookupKey_eq_some_of_mem (k v : String)
    (qs : List (String × String)) (hnd : (qs.map Prod.fst).Nodup)
    (hmem : (k, v) ∈ qs) : lookupKey k qs = some v := by
  induction qs with
  | nil => simp at hmem
  | cons p rest ih =>
    obtain ⟨k', v'⟩ := p
    rcases List.mem_cons.mp hmem with hhead | htail
    · obtain ⟨rfl, rfl⟩ := Prod.mk.injEq .. ▸ hhead
      simp_all [lookupKey]
    · have hk : k' ≠ k := by
        intro hkk
        subst hkk
        exact (List.nodup_cons.mp (by simpa using hnd)).1
          (List.mem_map_of_mem Prod.fst htail)
      simpa [lookupKey, hk] using
        ih (List.nodup_cons.mp (by simpa using hnd)).2 htail

/-- With pairwise-distinct keys, the lookup depends only on the map
contents, not on the iteration order of the association list. -/
theorem lookupKey_perm (qs qs' : List (String × String))
    (hperm : qs.Perm qs') (hnd : (qs.map Prod.fst).Nodup) (k : String) :
    lookupKey k qs = lookupKey k qs' := by
  have hnd' : (qs'.map Prod.fst).Nodup := (hperm.map Prod.fst).nodup_iff.mp hnd
  cases hq : lookupKey k qs with
  | none =>
    have habs : k ∉ qs.map Prod.fst := (lookupKey_eq_none k qs).mp hq
    have habs' : k ∉ qs'.map Prod.fst := fun hx =>
      habs ((hperm.map Prod.fst).mem_iff.mpr hx)
    exact ((lookupKey_eq_none k qs').mpr habs').symm
  | some v =>
    have hmem : (k, v) ∈ qs' :=
      hperm.mem_iff.mp (mem_of_lookupKey_eq_some k v qs hq)
    exact (lookupKey_eq_some_of_mem k v qs' hnd' hmem).symm

/-- Encoding with sorted keys is invariant under permutation of the
association list, given pairwise-distinct keys. -/
theorem encodeValues_perm (qs qs' : List (String × String))
    (hperm : qs.Perm qs') (hnd : (qs.map Prod.fst).Nodup) :
    encodeValues qs = encodeValues qs' := by
  have hpk : (qs.map Prod.fst).Perm (qs'.map Prod.fst) := hperm.map Prod.fst
  have hsorted :
      (qs.map Prod.fst).insertionSort (fun a b => a ≤ b) =
        (qs'.map Prod.fst).insertionSort (fun a b => a ≤ b) :=
    List.eq_of_perm_of_sorted
      (((List.perm_insertionSort _ _).trans hpk).trans
        (List.perm_insertionSort _ _).symm)
      (List.sorted_insertionSort _ _) (List.sorted_insertionSort _ _)
  have hfun :
      (fun k => k ++ "=" ++ (lookupKey k qs).getD "") =
        (fun k => k ++ "=" ++ (lookupKey k qs').getD "") := by
    funext k
    rw [lookupKey_perm qs qs' hperm hnd k]
  rw [encodeValues, encodeValues, hsorted, hfun]

/-! ### Claim theorems -/

/-- C1 (counterexample): the claim says every 2xx status is treated as
a success, but the code compares against http.StatusOK exactly: at
status 201 — which lies in the OK class — SendUpload, SendDB and
queryBundle all return a transport error, not success. -/
theorem c1_two_xx_not_success :
    (200 ≤ 201 ∧ 201 < 300) ∧
    sendUpload { statusCode := 201, body := [] } =
      some "unexpected status code 201" ∧
    sendDB { statusCode := 201, body := [] } =
      some "unexpected status code 201" ∧
    queryBundle (fun _ => none) { statusCode := 201, body := [] } =
      some "unexpected status code 201" := by
  refine ⟨by decide, ?_, ?_, ?_⟩ <;> rfl

/-- C1 (amended): every Transport operation treats a response as a
success exactly when its status code equals http.StatusOK (200); any
other status, including the rest of the 2xx class, yields a transport
error carrying the status code. -/
theorem transport_success_iff_status200 (resp : HTTPResponse)
    (decode : Bytes → Option String) (openRes : Except String String)
    (copyRes closeRes : Option String) :
    (sendUpload resp = none ↔ resp.statusCode = httpStatusOK) ∧
    (sendDB resp = none ↔ resp.statusCode = httpStatusOK) ∧
    (resp.statusCode = httpStatusOK →
      queryBundle decode resp = decode resp.body) ∧
    (resp.statusCode ≠ httpStatusOK →
      queryBundle decode resp = some (statusErrorMessage resp.statusCode)) ∧
    (resp.statusCode ≠ httpStatusOK →
      (getUpload ⟨resp, openRes, copyRes, closeRes⟩).err =
        some (statusErrorMessage resp.statusCode)) := by
  by_cases h : resp.statusCode = httpStatusOK <;>
    simp [sendUpload, sendDB, queryBundle, getUpload, clientDo, h]

/-- Witness for the amended C1: a 404 response makes queryBundle fail
with the status-code error. -/
theorem transport_success_iff_status200_witness :
    queryBundle (fun _ => none) { statusCode := 404, body := [] } =
      some (statusErrorMessage 404) :=
  (transport_success_iff_status200 { statusCode := 404, body := [] }
    (fun _ => none) (Except.ok "f") none none).2.2.2.1 (by decide)

/-- C2: the fan-out aggregate drains one result per unit of work (all
N are reported before resolution), is nil exactly when every unit
result is nil, and a non-nil aggregate is one of the unit errors,
namely the first non-nil error in completion (drain) order. -/
theorem parallelForRepo_aggregation (f : Repo → Option String)
    (corpus completionOrder : List Repo)
    (hperm : completionOrder.Perm corpus) :
    ((completionOrder.map f).length = corpus.length) ∧
    (parallelForRepo f completionOrder = none ↔
      ∀ repo ∈ corpus, f repo = none) ∧
    (∀ e, parallelForRepo f completionOrder = some e →
      (∃ repo ∈ corpus, f repo = some e) ∧
      ∃ pre post, completionOrder.map f = pre ++ some e :: post ∧
        ∀ r ∈ pre, r = none) := by
  refine ⟨by simp [hperm.length_eq], ?_, ?_⟩
  · rw [parallelForRepo, drainErrors_eq_none_iff]
    constructor
    · intro h repo hrepo
      exact h _ (List.mem_map_of_mem f (hperm.mem_iff.mpr hrepo))
    · intro h r hr
      obtain ⟨repo, hrepo, rfl⟩ := List.mem_map.mp hr
      exact h repo (hperm.mem_iff.mp hrepo)
  · intro e he
    obtain ⟨pre, post, heq, hall⟩ := drainErrors_eq_some _ e he
    refine ⟨?_, pre, post, heq, hall⟩
    have hmem : some e ∈ completionOrder.map f := by
      rw [heq]
      simp
    obtain ⟨repo, hrepo, hfe⟩ := List.mem_map.mp hmem
    exact ⟨repo, hperm.mem_iff.mp hrepo, hfe⟩

/-- Witness for C2: over the actual corpus with the completion order
reversed, a single failing unit (titan) makes the aggregate that very
error, and it is one of the unit errors. -/
theorem parallelForRepo_aggregation_witness :
    ∃ repo ∈ repos,
      (if repo.name = "titan" then some "boom" else none) = some "boom" :=
  ((parallelForRepo_aggregation
      (fun r => if r.name = "titan" then some "boom" else none)
      repos repos.reverse (List.reverse_perm repos)).2.2 "boom"
    (by decide)).1

/-- C3 (counterexample): the claim says a non-not-found stat error
makes the idempotency checks return nil; in fact both ensureCloned and
index return that stat error, which is non-nil. -/
theorem c3_stat_error_not_swallowed :
    (ensureCloned { owner := "uber-go", name := "zap", revs := [] }
        (StatResult.failed "permission denied") none).1 ≠ none ∧
    (index "/work" "uber-go" "zap" "deadbeef"
        { statIndexFile := StatResult.failed "permission denied",
          tempDirResult := Except.ok "tmp0", cpResult := none,
          checkoutResult := none, vendorResult := none,
          indexerResult := none }).result ≠ none := by
  exact ⟨by simp [ensureCloned], by simp [index]⟩

/-- C3 (amended): when the existence stat fails with an error other
than not-found, the clone and index idempotency checks skip the work
(no subprocess, no workspace) and return the stat error itself,
propagating it to the caller. -/
theorem stat_failed_propagates (repo : Repo) (cloneResult : Option String)
    (cwd owner name rev e : String) (tdr : Except String String)
    (c1 c2 c3 c4 : Option String) :
    ensureCloned repo (StatResult.failed e) cloneResult = (some e, []) ∧
    index cwd owner name rev
      { statIndexFile := StatResult.failed e, tempDirResult := tdr,
        cpResult := c1, checkoutResult := c2, vendorResult := c3,
        indexerResult := c4 } =
      { workspaceCreated := false, workspaceRemoved := false,
        commandsRun := [], result := some e } :=
  ⟨rfl, rfl⟩

/-- C4: the observability decorator is transparent: every operation of
ObservedClient returns exactly the value and error the wrapped client
returns for the same call, including bundle-scoped queries. -/
theorem observedClient_transparent (c : ObservedClient) (bundleID : Nat)
    (r : Bytes) (dir op : String) (qs : List (String × String)) :
    (c.sendUpload bundleID r).1 = c.base.sendUpload bundleID r ∧
    (c.getUpload bundleID dir).1 = c.base.getUpload bundleID dir ∧
    (c.sendDB bundleID r).1 = c.base.sendDB bundleID r ∧
    (c.queryBundle bundleID op qs).1 = c.base.queryBundle bundleID op qs ∧
    (c.bundleClientQuery bundleID op qs).1 =
      c.base.queryBundle bundleID op qs :=
  ⟨rfl, rfl, rfl, rfl, rfl⟩

/-- C5: if the deterministic artifact exists, the index task returns
nil with no subprocess and no workspace; if it does not exist, the
task creates a workspace and runs copy, checkout, vendor, indexer in
that order (all four when every step succeeds, and always an in-order
fragment from the front of that list). -/
theorem index_artifact_idempotency (cwd owner name rev tempDir : String)
    (tdr : Except String String) (c1 c2 c3 c4 : Option String) :
    (index cwd owner name rev
        { statIndexFile := StatResult.found, tempDirResult := tdr,
          cpResult := c1, checkoutResult := c2, vendorResult := c3,
          indexerResult := c4 } =
      { workspaceCreated := false, workspaceRemoved := false,
        commandsRun := [], result := none }) ∧
    (index cwd owner name rev
        { statIndexFile := StatResult.notFound,
          tempDirResult := Except.ok tempDir, cpResult := none,
          checkoutResult := none, vendorResult := none,
          indexerResult := none } =
      { workspaceCreated := true, workspaceRemoved := true,
        commandsRun := indexCommands cwd name rev tempDir,
        result := none }) ∧
    ((index cwd owner name rev
        { statIndexFile := StatResult.notFound,
          tempDirResult := Except.ok tempDir, cpResult := c1,
          checkoutResult := c2, vendorResult := c3,
          indexerResult := c4 }).workspaceCreated = true ∧
      ∃ rest, indexCommands cwd name rev tempDir =
        (index cwd owner name rev
          { statIndexFile := StatResult.notFound,
            tempDirResult := Except.ok tempDir, cpResult := c1,
            checkoutResult := c2, vendorResult := c3,
            indexerResult := c4 }).commandsRun ++ rest) := by
  refine ⟨rfl, rfl, ?_⟩
  cases c1 with
  | some e1 => exact ⟨rfl, _, rfl⟩
  | none =>
    cases c2 with
    | some e2 => exact ⟨rfl, _, rfl⟩
    | none =>
      cases c3 with
      | some e3 => exact ⟨rfl, _, rfl⟩
      | none =>
        cases c4 with
        | some e4 => exact ⟨rfl, _, rfl⟩
        | none => exact ⟨rfl, _, rfl⟩

/-- C6: the temporary workspace never outlives its task: on every exit
path the deferred removal ran exactly when the workspace had been
created. -/
theorem index_workspace_scoped (cwd owner name rev : String)
    (env : IndexEnv) :
    (index cwd owner name rev env).workspaceRemoved =
      (index cwd owner name rev env).workspaceCreated := by
  rcases env with ⟨stat, tdr, c1, c2, c3, c4⟩
  cases stat with
  | found => rfl
  | failed e => rfl
  | notFound => cases tdr <;> rfl

/-- C7: a non-OK response makes every Transport operation return the
error carrying the response status code, and the response body is
closed inside do before that error is returned. -/
theorem transport_non_ok_error (resp : HTTPResponse)
    (h : resp.statusCode ≠ httpStatusOK) (decode : Bytes → Option String)
    (openRes : Except String String) (copyRes closeRes : Option String) :
    clientDo resp = (Except.error (statusErrorMessage resp.statusCode), true) ∧
    sendUpload resp = some (statusErrorMessage resp.statusCode) ∧
    sendDB resp = some (statusErrorMessage resp.statusCode) ∧
    queryBundle decode resp = some (statusErrorMessage resp.statusCode) ∧
    (getUpload ⟨resp, openRes, copyRes, closeRes⟩).err =
      some (statusErrorMessage resp.statusCode) ∧
    (getUpload ⟨resp, openRes, copyRes, closeRes⟩).bodyClosed = true := by
  simp [clientDo, sendUpload, sendDB, queryBundle, getUpload, h]

/-- Witness for C7 at a concrete 404 response. -/
theorem transport_non_ok_error_witness :
    sendUpload { statusCode := 404, body := [] } =
      some (statusErrorMessage 404) :=
  (transport_non_ok_error { statusCode := 404, body := [] } (by decide)
    (fun _ => none) (Except.ok "f") none none).2.1

/-- C8: the clone check issues exactly one git clone of the canonical
GitHub URL when the local directory is missing, and returns nil with
zero clone attempts when it is present. -/
theorem ensureCloned_attempts (repo : Repo) (cloneResult : Option String) :
    ensureCloned repo StatResult.notFound cloneResult =
      (cloneResult, [gitCloneCommand repo]) ∧
    (ensureCloned repo StatResult.notFound cloneResult).2.length = 1 ∧
    ensureCloned repo StatResult.found cloneResult = (none, []) ∧
    (gitCloneCommand repo).argv =
      ["git", "clone",
       "https://github.com/" ++ repo.owner ++ "/" ++ repo.name ++ ".git"] :=
  ⟨rfl, rfl, rfl, rfl⟩

/-- C9: makeURL and makeBundleURL are deterministic in the query map:
permuting the (distinct-key) association list that stands for the map
iteration order leaves the built URL, and its rendering, unchanged,
because the query string is rendered with sorted keys. -/
theorem makeURL_deterministic (baseURL path : String)
    (qs qs' : List (String × String)) (hperm : qs.Perm qs')
    (hnd : (qs.map Prod.fst).Nodup) :
    makeURL baseURL path qs = makeURL baseURL path qs' ∧
    (∀ bundleID op, makeBundleURL baseURL bundleID op qs =
      makeBundleURL baseURL bundleID op qs') ∧
    (makeURL baseURL path qs).render = (makeURL baseURL path qs').render := by
  have henc : encodeValues qs = encodeValues qs' :=
    encodeValues_perm qs qs' hperm hnd
  refine ⟨?_, fun bundleID op => ?_, ?_⟩ <;>
    simp [makeURL, makeBundleURL, GoURL.render, henc]

/-- Witness for C9: swapping two query entries leaves the bundle query
URL unchanged. -/
theorem makeURL_deterministic_witness :
    makeURL "http://bundle-manager" "dbs/42/references"
        [("b", "2"), ("a", "1")] =
      makeURL "http://bundle-manager" "dbs/42/references"
        [("a", "1"), ("b", "2")] :=
  (makeURL_deterministic "http://bundle-manager" "dbs/42/references"
    [("b", "2"), ("a", "1")] [("a", "1"), ("b", "2")]
    (List.Perm.swap ("a", "1") ("b", "2") []) (by decide)).1

/-- C10: when the destination file has been created but the body copy
fails, GetUpload returns the empty path with the copy error, the body
is closed, and the partially written file is not removed. -/
theorem getUpload_copy_failure (resp : HTTPResponse)
    (hok : resp.statusCode = httpStatusOK) (fname ce : String)
    (closeRes : Option String) :
    getUpload ⟨resp, Except.ok fname, some ce, closeRes⟩ =
      { path := "", err := some ce, fileCreated := true,
        fileRemoved := false, bodyClosed := true } := by
  simp [getUpload, clientDo, hok]

/-- Witness for C10 at a concrete 200 response. -/
theorem getUpload_copy_failure_witness :
    getUpload ⟨{ statusCode := 200, body := [7] }, Except.ok "d41d8cd9",
        some "read: connection reset", none⟩ =
      { path := "", err := some "read: connection reset",
        fileCreated := true, fileRemoved := false, bodyClosed := true } :=
  getUpload_copy_failure { statusCode := 200, body := [7] } (by decide)
    "d41d8cd9" "read: connection reset" none

end Precise
